import Mathlib

/-!
Verification of the desktop-clock-app specification against its source.

Part 1 embeds the service worker (src/public/sw.js): responses, the three
versioned cache stores, the fetch-event routing and the three request
handlers, the message listener and its helpers.

Part 2 embeds the wallpaper rotation hook (useWallpaperRotation) and the
service-worker client utilities (src/src/utils, serviceWorker part).

JavaScript strings stay strings; the Cache API is modelled as association
lists keyed by URL with overwriting `put`; `Math.random() * n` floored is
modelled as an arbitrary natural draw reduced mod n (every index in range
is a possible outcome); a rejected promise is an `Except.error` and a
`fetch` that rejects is `none` from the network oracle.
-/

namespace DesktopClock

/-- A response as the service worker observes it: status code, status text
and body bytes.  `response.ok` in the browser is status in [200, 300). -/
structure SWResponse where
  status : Nat
  statusText : String
  body : String
deriving DecidableEq, Repr

/-- The `ok` flag of a response (status in the 200-299 range). -/
def SWResponse.ok (r : SWResponse) : Bool :=
  decide (200 ≤ r.status ∧ r.status < 300)

/-- The network: none means the fetch rejects (network unreachable),
some r means the server answered with r (possibly a non-ok status). -/
def Network : Type := String → Option SWResponse

/-- The three cache tiers of sw.js.  `runtime` is CACHE_NAME,
`staticAssets` is STATIC_CACHE_NAME, `wallpapers` is WALLPAPER_CACHE_NAME. -/
inductive CacheBase where
  | runtime
  | staticAssets
  | wallpapers
deriving DecidableEq, Repr

/-- A store name: the JS constants embed the deployment version tag in the
string (e.g. the wallpaper store of version 1 is the string
desktop-clock-wallpapers-v1); we model the (base, versionTag) pair
structurally, so distinct tags give distinct names exactly as the distinct
strings do. -/
abbrev StoreName : Type := CacheBase × Nat

/-- CACHE_NAME with version tag v (the string desktop-clock-v1 at v = 1). -/
def cacheNameV (v : Nat) : StoreName := (CacheBase.runtime, v)

/-- STATIC_CACHE_NAME with version tag v. -/
def staticCacheNameV (v : Nat) : StoreName := (CacheBase.staticAssets, v)

/-- WALLPAPER_CACHE_NAME with version tag v. -/
def wallpaperCacheNameV (v : Nat) : StoreName := (CacheBase.wallpapers, v)

/-- The deployed script's version tag (the -v1 suffix of its constants). -/
def DEPLOYED_VERSION : Nat := 1

/-- CACHE_NAME = desktop-clock-v1. -/
def CACHE_NAME : StoreName := cacheNameV DEPLOYED_VERSION

/-- STATIC_CACHE_NAME = desktop-clock-static-v1. -/
def STATIC_CACHE_NAME : StoreName := staticCacheNameV DEPLOYED_VERSION

/-- WALLPAPER_CACHE_NAME = desktop-clock-wallpapers-v1. -/
def WALLPAPER_CACHE_NAME : StoreName := wallpaperCacheNameV DEPLOYED_VERSION

/-- One cache store: an association list URL -> response. -/
abbrev CacheMap : Type := List (String × SWResponse)

/-- Lookup of a URL in one store (cache.match within a single cache). -/
def CacheMap.lookupKey : CacheMap → String → Option SWResponse
  | [], _ => none
  | (k, r) :: rest, url => if k = url then some r else CacheMap.lookupKey rest url

/-- Whether a store holds an entry for a URL. -/
def CacheMap.hasKey (m : CacheMap) (url : String) : Bool :=
  (m.lookupKey url).isSome

/-- `cache.put(url, r)`: overwrite the existing entry for the URL if there
is one, otherwise append a new entry — never a duplicate key. -/
def CacheMap.put : CacheMap → String → SWResponse → CacheMap
  | [], url, r => [(url, r)]
  | (k, v) :: t, url, r =>
    if k = url then (url, r) :: t else (k, v) :: CacheMap.put t url r

/-- The CacheStorage of the origin: all stores, by name. -/
abbrev CacheStorage : Type := List (StoreName × CacheMap)

/-- `caches.keys()`: the names of the existing stores. -/
def CacheStorage.names (st : CacheStorage) : List StoreName :=
  st.map Prod.fst

/-- The contents of a named store; `caches.open` of a missing name creates
an empty store, so a missing name reads as empty. -/
def CacheStorage.getStore : CacheStorage → StoreName → CacheMap
  | [], _ => []
  | (n, m) :: rest, name => if n = name then m else CacheStorage.getStore rest name

/-- Replace (or create) the named store with the given contents. -/
def CacheStorage.setStore : CacheStorage → StoreName → CacheMap → CacheStorage
  | [], name, m => [(name, m)]
  | (n, m0) :: rest, name, m =>
    if n = name then (name, m) :: rest
    else (n, m0) :: CacheStorage.setStore rest name m

/-- `caches.match(request)`: search every store, first hit wins. -/
def CacheStorage.matchUrl : CacheStorage → String → Option SWResponse
  | [], _ => none
  | (_, m) :: rest, url =>
    match m.lookupKey url with
    | some r => some r
    | none => CacheStorage.matchUrl rest url

/-- `caches.open(name)` followed by `cache.put(url, r)`. -/
def CacheStorage.openPut (st : CacheStorage) (name : StoreName) (url : String)
    (r : SWResponse) : CacheStorage :=
  st.setStore name ((st.getStore name).put url r)

/-- Entry count of a named store, as getCacheStatus reports it
(`cache.keys().length`). -/
def CacheStorage.entryCount (st : CacheStorage) (name : StoreName) : Nat :=
  (st.getStore name).length

/-- The request class the fetch listener routes on. -/
inductive RequestClass where
  | wallpaper
  | staticAsset
  | other
deriving DecidableEq, Repr

/-- String.startsWith, expressed on the character data so it computes by
kernel reduction: p is a leading segment of s. -/
def strStartsWith (s p : String) : Bool :=
  p.data.isPrefixOf s.data

/-- String.endsWith, expressed on the character data: p is a trailing
segment of s. -/
def strEndsWith (s p : String) : Bool :=
  p.data.reverse.isPrefixOf s.data.reverse

/-- The routing test of the fetch listener (sw.js lines 96-108): wallpaper
paths first, then script/style/root/html paths, else everything else. -/
def classify (path : String) : RequestClass :=
  if strStartsWith path "/wallpapers/" then RequestClass.wallpaper
  else if strEndsWith path ".js" || strEndsWith path ".css" || path = "/"
      || strEndsWith path ".html" then RequestClass.staticAsset
  else RequestClass.other

/-- What one intercepted fetch produced: the settled response (an
`Except.error` is a rethrown error, i.e. a rejected respondWith promise),
the cache storage afterwards, and the URLs the handler fetched from the
network while serving it. -/
structure FetchResult where
  response : Except Unit SWResponse
  storage : CacheStorage
  netFetches : List String
deriving Repr

/-- The constructed fallback of handleWallpaperRequest: an empty-body 404
response, returned instead of throwing. -/
def unavailableResponse : SWResponse :=
  { status := 404, statusText := "Wallpaper not available offline", body := "" }

/-- handleWallpaperRequest (sw.js lines 114-140): cache first; else fetch,
cache ok responses into the wallpaper store and return them; any other
outcome (rejected fetch, or a non-ok response, which the code turns into a
thrown error) is caught and answered with `unavailableResponse`. -/
def handleWallpaperRequest (st : CacheStorage) (net : Network) (url : String) :
    FetchResult :=
  match st.matchUrl url with
  | some r => { response := Except.ok r, storage := st, netFetches := [] }
  | none =>
    match net url with
    | some r =>
      if r.ok then
        { response := Except.ok r,
          storage := st.openPut WALLPAPER_CACHE_NAME url r,
          netFetches := [url] }
      else
        { response := Except.ok unavailableResponse, storage := st,
          netFetches := [url] }
    | none =>
      { response := Except.ok unavailableResponse, storage := st,
        netFetches := [url] }

/-- handleStaticAssetRequest (sw.js lines 145-171): cache first with no
refresh on a hit; on a miss fetch the network, cache ok responses into the
static store, and return the network response (ok or not); if the fetch
rejects, a navigation request falls back to the cached /index.html, and
otherwise the error is rethrown. -/
def handleStaticAssetRequest (st : CacheStorage) (net : Network) (url : String)
    (navigate : Bool) : FetchResult :=
  match st.matchUrl url with
  | some r => { response := Except.ok r, storage := st, netFetches := [] }
  | none =>
    match net url with
    | some r =>
      { response := Except.ok r,
        storage := if r.ok then st.openPut STATIC_CACHE_NAME url r else st,
        netFetches := [url] }
    | none =>
      if navigate then
        match st.matchUrl "/index.html" with
        | some idx =>
          { response := Except.ok idx, storage := st, netFetches := [url] }
        | none => { response := Except.error (), storage := st, netFetches := [url] }
      else { response := Except.error (), storage := st, netFetches := [url] }

/-- handleNetworkFirstRequest (sw.js lines 176-195): network first, cache
ok responses into the runtime store; on a rejected fetch fall back to any
cached copy, else rethrow. -/
def handleNetworkFirstRequest (st : CacheStorage) (net : Network) (url : String) :
    FetchResult :=
  match net url with
  | some r =>
    { response := Except.ok r,
      storage := if r.ok then st.openPut CACHE_NAME url r else st,
      netFetches := [url] }
  | none =>
    match st.matchUrl url with
    | some c => { response := Except.ok c, storage := st, netFetches := [url] }
    | none => { response := Except.error (), storage := st, netFetches := [url] }

/-- The fetch listener's dispatch on an intercepted GET request. -/
def handleFetch (st : CacheStorage) (net : Network) (url : String)
    (navigate : Bool) : FetchResult :=
  match classify url with
  | RequestClass.wallpaper => handleWallpaperRequest st net url
  | RequestClass.staticAsset => handleStaticAssetRequest st net url navigate
  | RequestClass.other => handleNetworkFirstRequest st net url

/-- The activate listener's cleanup (sw.js lines 62-73): every existing
store whose name is none of the deploying script's three constants (tagged
with version v) is deleted; the rest survive. -/
def activateCleanup (v : Nat) (st : CacheStorage) : CacheStorage :=
  st.filter (fun s =>
    s.1 = cacheNameV v || s.1 = staticCacheNameV v || s.1 = wallpaperCacheNameV v)

/-- An element of the CACHE_WALLPAPERS payload: the app sends image objects
whose `src` field is the only part the worker reads. -/
structure CacheImage where
  src : String
deriving DecidableEq, Repr

/-- One iteration of the cacheWallpapers loop on a single store: fetch the
image, and put it when the response is ok; failures are skipped. -/
def cacheStep (net : Network) (m : CacheMap) (img : CacheImage) : CacheMap :=
  match net img.src with
  | some r => if r.ok then m.put img.src r else m
  | none => m

/-- The body of cacheWallpapers on the opened wallpaper store. -/
def runCacheSet (net : Network) (images : List CacheImage) (m : CacheMap) : CacheMap :=
  images.foldl (cacheStep net) m

/-- cacheWallpapers (sw.js lines 319-336): open the wallpaper store, then
fetch-and-put each requested image best effort. -/
def cacheWallpapers (st : CacheStorage) (net : Network) (images : List CacheImage) :
    CacheStorage :=
  st.setStore WALLPAPER_CACHE_NAME
    (runCacheSet net images (st.getStore WALLPAPER_CACHE_NAME))

/-- clearAllCaches (sw.js lines 341-349): delete every store. -/
def clearAllCaches (_st : CacheStorage) : CacheStorage := []

/-- getCacheStatus (sw.js lines 354-370): report every store's entry count. -/
def getCacheStatusSW (st : CacheStorage) : List (StoreName × Nat) :=
  st.map (fun s => (s.1, s.2.length))

/-- A control message, as the message listener switches on it. -/
inductive ControlMessage where
  | skipWaiting
  | cacheSet (images : List CacheImage)
  | clearAll
  | getStatus
deriving Repr

/-- The message listener (sw.js lines 292-314): the storage afterwards and
the reply posted on the private port, when the message has one. -/
def handleMessage (st : CacheStorage) (net : Network) :
    ControlMessage → CacheStorage × Option (List (StoreName × Nat))
  | ControlMessage.skipWaiting => (st, none)
  | ControlMessage.cacheSet images => (cacheWallpapers st net images, none)
  | ControlMessage.clearAll => (clearAllCaches st, none)
  | ControlMessage.getStatus => (st, some (getCacheStatusSW st))

/-- A wallpaper image descriptor (src/types, WallpaperImage). -/
structure WallpaperImage where
  src : String
  category : String
  filename : String
deriving DecidableEq, Repr

/-- Fallback descriptor fed to positional lookups whose index is already
known to be in range. -/
def defaultImage : WallpaperImage := { src := "", category := "", filename := "" }

/-- The pair getImagesWithFallback resolves to: the images of the selected
categories plus the per-category failure notes. -/
structure ResolveResult where
  images : List WallpaperImage
  errors : List String
deriving DecidableEq, Repr

/-- How the getImagesWithFallback promise settled for the hook: resolved
with a partial result, or rejected (caught by the hook's outer catch). -/
inductive LoadOutcome where
  | resolved (res : ResolveResult)
  | rejected (msg : String)
deriving Repr

/-- Modelled from the spec: the CategoryManifestResolver behind
getImagesWithFallback lives in src/utils/imageLoader.ts, which is not among
the sources; spec section 4.1 defines it.  The manifest entry of one
category, empty when the category is missing. -/
def manifestImages (manifest : List (String × List String)) (c : String) :
    List String :=
  match manifest.lookup c with
  | some files => files
  | none => []

/-- Modelled from the spec: an ImageDescriptor for file f of category c,
with the /wallpapers/{category}/{filename} URI scheme of spec section 6. -/
def mkImage (c f : String) : WallpaperImage :=
  { src := "/wallpapers/" ++ c ++ "/" ++ f, category := c, filename := f }

/-- Modelled from the spec: resolve(categories) per spec section 4.1 —
images are concatenated in input category order keeping manifest order
within a category, duplicates preserved; a missing or empty category is a
soft failure recorded in errors and never aborts the others. -/
def resolveCategories (manifest : List (String × List String))
    (categories : List String) : ResolveResult :=
  { images := categories.foldr
      (fun c acc => (manifestImages manifest c).map (mkImage c) ++ acc) [],
    errors := categories.filter (fun c => (manifestImages manifest c).isEmpty) }

/-- The rotation hook's state: the five useState cells of
useWallpaperRotation. -/
structure RotationState where
  availableImages : List WallpaperImage
  currentImage : Option WallpaperImage
  currentIndex : Nat
  isLoading : Bool
  error : Option String
deriving DecidableEq, Repr

/-- The useState initializers of the hook: no images, no current image,
index 0, loading, no error. -/
def initialRotationState : RotationState :=
  { availableImages := [], currentImage := none, currentIndex := 0,
    isLoading := true, error := none }

/-- The error message the hook builds when resolution yields no images:
with per-category errors it lists them, otherwise a fixed message. -/
def noImagesMessage (errors : List String) : String :=
  if errors.isEmpty then "No images found for selected categories"
  else "No valid images found: " ++ String.intercalate ", " errors

/-- loadImages of useWallpaperRotation: empty selection resets to a clean
non-error empty state; a rejected resolution or an empty result resets the
images and records an error; a non-empty result installs the images with a
random starting index (drawn as r mod length).  Every branch ends with
isLoading false (the finally block).  The initial preload is awaited but
its failures are swallowed and it touches no state, so it does not appear
in the state transition. -/
def loadImages (categories : List String) (outcome : LoadOutcome) (r : Nat) :
    RotationState :=
  if categories.isEmpty then
    { availableImages := [], currentImage := none, currentIndex := 0,
      isLoading := false, error := none }
  else
    match outcome with
    | LoadOutcome.rejected msg =>
      { availableImages := [], currentImage := none, currentIndex := 0,
        isLoading := false,
        error := some ("Failed to load wallpaper images: " ++ msg) }
    | LoadOutcome.resolved res =>
      if res.images.isEmpty then
        { availableImages := [], currentImage := none, currentIndex := 0,
          isLoading := false, error := some (noImagesMessage res.errors) }
      else
        { availableImages := res.images,
          currentImage := some (res.images.getD (r % res.images.length) defaultImage),
          currentIndex := r % res.images.length,
          isLoading := false, error := none }

/-- What one nextImage call produced: the state afterwards and the images
handed to the fire-and-forget preloadImages call. -/
structure NextResult where
  state : RotationState
  preloads : List WallpaperImage
deriving DecidableEq, Repr

/-- nextImage of useWallpaperRotation: with no images it is a no-op;
otherwise it draws a random index (r mod length, no exclusion rule), makes
that image current, and builds the preload batch from two more random draws,
keeping a draw only when it differs from the new current index — so the
batch has at most two images.  The preload promise is not awaited. -/
def nextImage (s : RotationState) (r p1 p2 : Nat) : NextResult :=
  if s.availableImages.isEmpty then { state := s, preloads := [] }
  else
    let n := s.availableImages.length
    let k := r % n
    { state := { s with
        currentImage := some (s.availableImages.getD k defaultImage),
        currentIndex := k },
      preloads := (([p1 % n, p2 % n].filter (fun j => j ≠ k)).map
        (fun j => s.availableImages.getD j defaultImage)) }

/-- The hook's derived hasImages flag (availableImages.length > 0). -/
def hasImages (s : RotationState) : Bool :=
  decide (0 < s.availableImages.length)

/-- The states the hook can be in: the initial state, closed under
loadImages (a wholesale reset, fired on mount and on every category or
interval change) and under timer ticks running nextImage. -/
inductive Reachable : RotationState → Prop where
  | init : Reachable initialRotationState
  | load {s : RotationState} (categories : List String) (outcome : LoadOutcome)
      (r : Nat) : Reachable s → Reachable (loadImages categories outcome r)
  | tick {s : RotationState} (r p1 p2 : Nat) : Reachable s →
      Reachable (nextImage s r p1 p2).state

/-- The client-side message timeout (src/src/utils, sendMessageToServiceWorker). -/
def MESSAGE_TIMEOUT_MS : Nat := 5000

/-- How the worker side behaves for one posted message: a reply on the
private port t milliseconds later carrying data, or silence. -/
inductive ReplyBehavior where
  | replyAt (t : Nat) (data : List (StoreName × Nat))
  | silent

/-- sendMessageToServiceWorker: reject when no controller is active; else
resolve with the reply when it beats the 5000 ms timer, and reject with the
timeout error otherwise (the promise settles once, first event wins). -/
def sendMessageToServiceWorker (controllerActive : Bool) (reply : ReplyBehavior) :
    Except String (List (StoreName × Nat)) :=
  if controllerActive then
    match reply with
    | ReplyBehavior.replyAt t d =>
      if t < MESSAGE_TIMEOUT_MS then Except.ok d
      else Except.error "Service Worker message timeout"
    | ReplyBehavior.silent => Except.error "Service Worker message timeout"
  else Except.error "Service Worker not available"

/-- getCacheStatus on the client: send GET_CACHE_STATUS and degrade any
failure to the empty status mapping instead of rethrowing. -/
def getCacheStatusClient (controllerActive : Bool) (reply : ReplyBehavior) :
    List (StoreName × Nat) :=
  match sendMessageToServiceWorker controllerActive reply with
  | Except.ok s => s
  | Except.error _ => []

/-- Concrete fixture: a 200 response. -/
def respOk : SWResponse := { status := 200, statusText := "OK", body := "bytes" }

/-- Concrete fixture: a 500 response (ok = false). -/
def respErr : SWResponse := { status := 500, statusText := "Server Error", body := "" }

/-- Concrete fixture: a network where only the nature wallpaper resolves. -/
def netNature : Network :=
  fun u => if u = "/wallpapers/nature/a.jpg" then some respOk else none

/-- Concrete fixture: a network where every fetch rejects. -/
def netDown : Network := fun _ => none

/-- Concrete fixture: a network answering every URL with a 200 response. -/
def netAll : Network := fun _ => some respOk

/-- Concrete fixture: a network answering every URL with a non-ok response. -/
def netBad : Network := fun _ => some respErr

/-- Concrete fixture: storage whose static store holds /main.css. -/
def stStatic : CacheStorage :=
  [(STATIC_CACHE_NAME, [("/main.css", respOk)])]

/-- Concrete fixture: storage whose static store holds only /index.html. -/
def stShell : CacheStorage :=
  [(STATIC_CACHE_NAME, [("/index.html", respOk)])]

/-- Concrete fixture: a rotation state holding two images. -/
def rotTwo : RotationState :=
  { availableImages := [mkImage "nature" "a.jpg", mkImage "nature" "b.jpg"],
    currentImage := some (mkImage "nature" "a.jpg"), currentIndex := 0,
    isLoading := false, error := none }

/-- Concrete fixture: a CACHE_WALLPAPERS payload of two images. -/
def imgsAB : List CacheImage :=
  [{ src := "/wallpapers/x/a.jpg" }, { src := "/wallpapers/x/b.jpg" }]

/-- Concrete fixture: a one-category manifest with one image. -/
def manifestOne : List (String × List String) := [("nature", ["a.jpg"])]

theorem getD_mem_of_lt {α : Type} (l : List α) (k : Nat) (d : α)
    (h : k < l.length) : l.getD k d ∈ l := by
  rw [List.getD_eq_getElem l d h]
  exact List.getElem_mem h

theorem CacheMap.lookupKey_put_self (m : CacheMap) (url : String) (r : SWResponse) :
    (m.put url r).lookupKey url = some r := by
  induction m with
  | nil => simp [CacheMap.put, CacheMap.lookupKey]
  | cons p t ih =>
    obtain ⟨k, v⟩ := p
    by_cases hk : k = url
    · rw [CacheMap.put, if_pos hk, CacheMap.lookupKey, if_pos rfl]
    · rw [CacheMap.put, if_neg hk, CacheMap.lookupKey, if_neg hk, ih]

theorem CacheMap.lookupKey_put_other (m : CacheMap) (url : String) (r : SWResponse)
    (url' : String) (h : url' ≠ url) :
    (m.put url r).lookupKey url' = m.lookupKey url' := by
  have hne : ¬ url = url' := fun hu => h hu.symm
  induction m with
  | nil => simp [CacheMap.put, CacheMap.lookupKey, hne]
  | cons p t ih =>
    obtain ⟨k, v⟩ := p
    by_cases hk : k = url
    · rw [CacheMap.put, if_pos hk, CacheMap.lookupKey, if_neg hne,
        CacheMap.lookupKey, if_neg (hk ▸ hne)]
    · rw [CacheMap.put, if_neg hk]
      by_cases hku : k = url'
      · rw [CacheMap.lookupKey, if_pos hku, CacheMap.lookupKey, if_pos hku]
      · rw [CacheMap.lookupKey, if_neg hku, CacheMap.lookupKey, if_neg hku, ih]

theorem CacheMap.put_eq_self_of_lookupKey (m : CacheMap) (url : String)
    (r : SWResponse) (h : m.lookupKey url = some r) : m.put url r = m := by
  induction m with
  | nil => simp [CacheMap.lookupKey] at h
  | cons p t ih =>
    obtain ⟨k, v⟩ := p
    by_cases hk : k = url
    · rw [CacheMap.lookupKey, if_pos hk] at h
      rw [CacheMap.put, if_pos hk, hk, Option.some_inj.mp h]
    · rw [CacheMap.lookupKey, if_neg hk] at h
      rw [CacheMap.put, if_neg hk, ih h]

theorem CacheStorage.getStore_setStore_self (st : CacheStorage) (name : StoreName)
    (m : CacheMap) : (st.setStore name m).getStore name = m := by
  induction st with
  | nil => simp [CacheStorage.setStore, CacheStorage.getStore]
  | cons p t ih =>
    obtain ⟨n, m0⟩ := p
    by_cases hn : n = name
    · rw [CacheStorage.setStore, if_pos hn, CacheStorage.getStore, if_pos rfl]
    · rw [CacheStorage.setStore, if_neg hn, CacheStorage.getStore, if_neg hn, ih]

theorem runCacheSet_cons (net : Network) (i : CacheImage) (t : List CacheImage)
    (m : CacheMap) :
    runCacheSet net (i :: t) m = runCacheSet net t (cacheStep net m i) := rfl

theorem cacheStep_lookupKey_preserved (net : Network) (i : CacheImage)
    (m : CacheMap) (url : String) (r : SWResponse) (hnet : net url = some r)
    (hok : r.ok = true) (hm : m.lookupKey url = some r) :
    (cacheStep net m i).lookupKey url = some r := by
  by_cases hsrc : i.src = url
  · rw [cacheStep, hsrc, hnet]
    simp only [hok, if_pos]
    rw [CacheMap.lookupKey_put_self]
  · rw [cacheStep]
    cases hni : net i.src with
    | none => exact hm
    | some r' =>
      by_cases hro : r'.ok
      · simp only [hro, if_pos]
        rw [CacheMap.lookupKey_put_other m i.src r' url
          (fun hu => hsrc hu.symm), hm]
      · simp only [hro]
        simpa using hm

theorem runCacheSet_lookupKey_preserved (net : Network) (images : List CacheImage)
    (m : CacheMap) (url : String) (r : SWResponse) (hnet : net url = some r)
    (hok : r.ok = true) (hm : m.lookupKey url = some r) :
    (runCacheSet net images m).lookupKey url = some r := by
  induction images generalizing m with
  | nil => exact hm
  | cons i t ih =>
    rw [runCacheSet_cons]
    exact ih _ (cacheStep_lookupKey_preserved net i m url r hnet hok hm)

theorem runCacheSet_lookupKey_of_mem (net : Network) (images : List CacheImage)
    (m : CacheMap) (img : CacheImage) (hmem : img ∈ images) (r : SWResponse)
    (hnet : net img.src = some r) (hok : r.ok = true) :
    (runCacheSet net images m).lookupKey img.src = some r := by
  induction images generalizing m with
  | nil => cases hmem
  | cons i t ih =>
    rw [runCacheSet_cons]
    rcases List.mem_cons.mp hmem with heq | htail
    · subst heq
      apply runCacheSet_lookupKey_preserved net t _ img.src r hnet hok
      rw [cacheStep, hnet]
      simp only [hok, if_pos]
      rw [CacheMap.lookupKey_put_self]
    · exact ih _ htail

theorem runCacheSet_fix (net : Network) (images : List CacheImage) (m : CacheMap)
    (hyp : ∀ img ∈ images, ∀ r : SWResponse, net img.src = some r →
      r.ok = true → m.lookupKey img.src = some r) :
    runCacheSet net images m = m := by
  induction images with
  | nil => rfl
  | cons i t ih =>
    have hstep : cacheStep net m i = m := by
      rw [cacheStep]
      cases hni : net i.src with
      | none => rfl
      | some r =>
        by_cases hro : r.ok
        · simp only [hro, if_pos]
          exact CacheMap.put_eq_self_of_lookupKey m i.src r
            (hyp i (List.mem_cons_self i t) r hni hro)
        · simp [hro]
    rw [runCacheSet_cons, hstep]
    exact ih (fun img hm r hnet hok => hyp img (List.mem_cons_of_mem i hm) r hnet hok)

theorem runCacheSet_idem (net : Network) (images : List CacheImage) (m : CacheMap) :
    runCacheSet net images (runCacheSet net images m) = runCacheSet net images m :=
  runCacheSet_fix net images _ (fun img hm r hnet hok =>
    runCacheSet_lookupKey_of_mem net images m img hm r hnet hok)

theorem mem_images_resolveCategories (manifest : List (String × List String))
    (categories : List String) (c f : String) (hc : c ∈ categories)
    (hf : f ∈ manifestImages manifest c) :
    mkImage c f ∈ (resolveCategories manifest categories).images := by
  induction categories with
  | nil => cases hc
  | cons c0 t ih =>
    rcases List.mem_cons.mp hc with heq | htail
    · subst heq
      exact List.mem_append_left _ (List.mem_map.mpr ⟨f, hf, rfl⟩)
    · exact List.mem_append_right _ (ih htail)

theorem noImagesMessage_ne_empty (errors : List String) :
    noImagesMessage errors ≠ "" := by
  rcases errors with _ | ⟨e, t⟩
  · rw [noImagesMessage]
    decide
  · rw [noImagesMessage, if_neg (by simp)]
    intro h
    have h2 := congrArg String.length h
    simp [String.length_append] at h2
    exact absurd h2.1 (by decide)

theorem loadImages_currentImage_mem (categories : List String)
    (outcome : LoadOutcome) (r : Nat)
    (hne : (loadImages categories outcome r).availableImages ≠ []) :
    ∃ i, (loadImages categories outcome r).currentImage = some i
      ∧ i ∈ (loadImages categories outcome r).availableImages := by
  by_cases hcat : categories.isEmpty
  · simp [loadImages, hcat] at hne
  · cases outcome with
    | rejected msg => simp [loadImages, hcat] at hne
    | resolved res =>
      by_cases hres : res.images.isEmpty
      · simp [loadImages, hcat, hres] at hne
      · have hpos : 0 < res.images.length := by
          cases hi : res.images with
          | nil => rw [hi] at hres; exact absurd rfl hres
          | cons a t => exact Nat.succ_pos _
        refine ⟨res.images.getD (r % res.images.length) defaultImage, ?_, ?_⟩
        · simp [loadImages, hcat, hres]
        · simp only [loadImages, hcat, hres]
          simp only [Bool.false_eq_true, if_false, if_neg]
          exact getD_mem_of_lt _ _ _ (Nat.mod_lt _ hpos)

theorem nextImage_availableImages (s : RotationState) (r p1 p2 : Nat) :
    (nextImage s r p1 p2).state.availableImages = s.availableImages := by
  by_cases h : s.availableImages.isEmpty
  · simp [nextImage, h]
  · simp [nextImage, h]

theorem nextImage_currentImage_mem (s : RotationState) (r p1 p2 : Nat)
    (hne : s.availableImages ≠ []) :
    ∃ i, (nextImage s r p1 p2).state.currentImage = some i
      ∧ i ∈ s.availableImages := by
  have hemp : s.availableImages.isEmpty = false := by
    cases hi : s.availableImages with
    | nil => exact absurd hi hne
    | cons a t => rfl
  have hpos : 0 < s.availableImages.length := by
    cases hi : s.availableImages with
    | nil => exact absurd hi hne
    | cons a t => exact Nat.succ_pos _
  refine ⟨s.availableImages.getD (r % s.availableImages.length) defaultImage, ?_, ?_⟩
  · simp [nextImage, hemp]
  · exact getD_mem_of_lt _ _ _ (Nat.mod_lt _ hpos)

/-- C2: for every reachable RotationState, a non-empty availableImages list
means currentImage is one of its elements; and every non-empty category
selection with at least one resolvable category lands in Ready (isLoading
false, error none) with currentImage drawn from the union of resolved
images. -/
theorem rotation_invariant_and_ready :
    (∀ s : RotationState, Reachable s → s.availableImages ≠ [] →
      ∃ i, s.currentImage = some i ∧ i ∈ s.availableImages)
    ∧ (∀ (manifest : List (String × List String)) (categories : List String)
        (c : String) (r : Nat), c ∈ categories → manifestImages manifest c ≠ [] →
        (loadImages categories
            (LoadOutcome.resolved (resolveCategories manifest categories))
            r).isLoading = false
        ∧ (loadImages categories
            (LoadOutcome.resolved (resolveCategories manifest categories))
            r).error = none
        ∧ (loadImages categories
            (LoadOutcome.resolved (resolveCategories manifest categories))
            r).availableImages = (resolveCategories manifest categories).images
        ∧ ∃ i, (loadImages categories
            (LoadOutcome.resolved (resolveCategories manifest categories))
            r).currentImage = some i
          ∧ i ∈ (resolveCategories manifest categories).images) := by
  constructor
  · intro s hs
    induction hs with
    | init => intro hne; exact absurd rfl hne
    | load categories outcome r _ _ =>
      intro hne
      exact loadImages_currentImage_mem categories outcome r hne
    | tick r p1 p2 _ ih =>
      rename_i s0 _
      intro hne
      rw [nextImage_availableImages] at hne
      obtain ⟨i, hi, hmem⟩ := nextImage_currentImage_mem s0 r p1 p2 hne
      exact ⟨i, hi, by rw [nextImage_availableImages]; exact hmem⟩
  · intro manifest categories c r hc hman
    have hcat : categories.isEmpty = false := by
      cases categories with
      | nil => cases hc
      | cons a t => rfl
    obtain ⟨f, hf⟩ := List.exists_mem_of_ne_nil _ hman
    have hmem := mem_images_resolveCategories manifest categories c f hc hf
    have himg : (resolveCategories manifest categories).images ≠ [] :=
      List.ne_nil_of_mem hmem
    have hres : (resolveCategories manifest categories).images.isEmpty = false := by
      cases hi : (resolveCategories manifest categories).images with
      | nil => exact absurd hi himg
      | cons a t => rfl
    have hpos : 0 < (resolveCategories manifest categories).images.length := by
      cases hi : (resolveCategories manifest categories).images with
      | nil => exact absurd hi himg
      | cons a t => exact Nat.succ_pos _
    refine ⟨?_, ?_, ?_, ?_⟩
    · simp [loadImages, hcat, hres]
    · simp [loadImages, hcat, hres]
    · simp [loadImages, hcat, hres]
    · refine ⟨(resolveCategories manifest categories).images.getD
        (r % (resolveCategories manifest categories).images.length)
        defaultImage, ?_, ?_⟩
      · simp [loadImages, hcat, hres]
      · exact getD_mem_of_lt _ _ _ (Nat.mod_lt _ hpos)

/-- C2 witness: a concrete load of the nature category is reachable,
lands in Ready and its current image is one of the resolved images. -/
theorem rotation_invariant_and_ready_witness :
    (∃ i, (loadImages ["nature"]
        (LoadOutcome.resolved (resolveCategories manifestOne ["nature"]))
        0).currentImage = some i
      ∧ i ∈ (loadImages ["nature"]
        (LoadOutcome.resolved (resolveCategories manifestOne ["nature"]))
        0).availableImages)
    ∧ ((loadImages ["nature"]
        (LoadOutcome.resolved (resolveCategories manifestOne ["nature"]))
        0).isLoading = false
      ∧ (loadImages ["nature"]
        (LoadOutcome.resolved (resolveCategories manifestOne ["nature"]))
        0).error = none
      ∧ (loadImages ["nature"]
        (LoadOutcome.resolved (resolveCategories manifestOne ["nature"]))
        0).availableImages = (resolveCategories manifestOne ["nature"]).images
      ∧ ∃ i, (loadImages ["nature"]
        (LoadOutcome.resolved (resolveCategories manifestOne ["nature"]))
        0).currentImage = some i
        ∧ i ∈ (resolveCategories manifestOne ["nature"]).images) :=
  ⟨rotation_invariant_and_ready.1 _
      (Reachable.load ["nature"]
        (LoadOutcome.resolved (resolveCategories manifestOne ["nature"])) 0
        Reachable.init)
      (by decide),
   rotation_invariant_and_ready.2 manifestOne ["nature"] "nature" 0
      (by decide) (by decide)⟩

/-- C3 counterexample: with two images available (so a tick fires) and the
random draws all landing on index 0, nextImage hands zero images to the
preload call, not the two the claim asserts — the loop keeps a drawn
preload index only when it differs from the newly selected index. -/
theorem nextImage_preload_count_counterexample :
    1 < rotTwo.availableImages.length
    ∧ (nextImage rotTwo 0 0 0).preloads.length ≠ 2 := by
  constructor
  · decide
  · decide

/-- C3 (amended): on a tick with more than one image available, nextImage
keeps availableImages, picks index r mod n (every index below n arises from
some draw, the previous index included — no exclusion rule), makes that
image current, and fires a never-awaited preload of AT MOST two images, all
drawn from availableImages. -/
theorem nextImage_random_pick_preload_at_most_two (s : RotationState)
    (r p1 p2 : Nat) (h : 1 < s.availableImages.length) :
    (nextImage s r p1 p2).state.availableImages = s.availableImages
    ∧ (nextImage s r p1 p2).state.currentIndex = r % s.availableImages.length
    ∧ (nextImage s r p1 p2).state.currentImage =
        some (s.availableImages.getD (r % s.availableImages.length) defaultImage)
    ∧ (∃ i, (nextImage s r p1 p2).state.currentImage = some i
        ∧ i ∈ s.availableImages)
    ∧ (∀ j, j < s.availableImages.length →
        (nextImage s j p1 p2).state.currentIndex = j)
    ∧ (nextImage s r p1 p2).preloads.length ≤ 2
    ∧ (∀ i, i ∈ (nextImage s r p1 p2).preloads → i ∈ s.availableImages) := by
  have hne : s.availableImages ≠ [] := by
    intro hnil
    rw [hnil] at h
    exact absurd h (by decide)
  have hemp : s.availableImages.isEmpty = false := by
    cases hi : s.availableImages with
    | nil => exact absurd hi hne
    | cons a t => rfl
  have hpos : 0 < s.availableImages.length := Nat.lt_of_lt_of_le Nat.zero_lt_one h.le
  refine ⟨?_, ?_, ?_, ?_, ?_, ?_, ?_⟩
  · exact nextImage_availableImages s r p1 p2
  · simp [nextImage, hemp]
  · simp [nextImage, hemp]
  · exact nextImage_currentImage_mem s r p1 p2 hne
  · intro j hj
    simp [nextImage, hemp, Nat.mod_eq_of_lt hj]
  · simp only [nextImage, hemp, Bool.false_eq_true, if_false]
    calc (([p1 % s.availableImages.length, p2 % s.availableImages.length].filter
            (fun j => j ≠ r % s.availableImages.length)).map
            (fun j => s.availableImages.getD j defaultImage)).length
        = (([p1 % s.availableImages.length, p2 % s.availableImages.length].filter
            (fun j => j ≠ r % s.availableImages.length))).length := by
          rw [List.length_map]
      _ ≤ ([p1 % s.availableImages.length, p2 % s.availableImages.length]).length :=
          List.length_filter_le _ _
      _ = 2 := rfl
  · intro i hi
    simp only [nextImage, hemp, Bool.false_eq_true, if_false] at hi
    obtain ⟨j, hjf, hji⟩ := List.mem_map.mp hi
    have hj2 : j ∈ [p1 % s.availableImages.length, p2 % s.availableImages.length] :=
      List.mem_of_mem_filter hjf
    have hjlt : j < s.availableImages.length := by
      rcases List.mem_cons.mp hj2 with h1 | h2
      · rw [h1]; exact Nat.mod_lt _ hpos
      · rcases List.mem_cons.mp h2 with h3 | h4
        · rw [h3]; exact Nat.mod_lt _ hpos
        · cases h4
    rw [← hji]
    exact getD_mem_of_lt _ _ _ hjlt

/-- C3 witness: the amended theorem applied to the concrete two-image state
with draws 1, 0, 1. -/
theorem nextImage_random_pick_preload_at_most_two_witness :
    1 < rotTwo.availableImages.length
    ∧ (nextImage rotTwo 1 0 1).preloads.length ≤ 2 :=
  ⟨by decide,
   (nextImage_random_pick_preload_at_most_two rotTwo 1 0 1 (by decide)).2.2.2.2.2.1⟩

/-- C4: an empty category selection resets to the Ready-style empty state —
isLoading false, error none, no images, no current image — and hasImages is
false; this is not the Error state. -/
theorem empty_selection_ready_state (outcome : LoadOutcome) (r : Nat) :
    loadImages [] outcome r =
      { availableImages := [], currentImage := none, currentIndex := 0,
        isLoading := false, error := none }
    ∧ hasImages (loadImages [] outcome r) = false := by
  constructor
  · simp [loadImages]
  · simp [loadImages, hasImages]

/-- C5: a non-empty selection whose resolution yields zero images ends with
isLoading false, no images, no current image, and the Error state carrying
a non-empty message. -/
theorem failed_resolution_error_state (categories : List String)
    (errors : List String) (r : Nat) (hne : categories ≠ []) :
    (loadImages categories
        (LoadOutcome.resolved { images := [], errors := errors }) r).isLoading
      = false
    ∧ (loadImages categories
        (LoadOutcome.resolved { images := [], errors := errors }) r).availableImages
      = []
    ∧ (loadImages categories
        (LoadOutcome.resolved { images := [], errors := errors }) r).currentImage
      = none
    ∧ ∃ msg, (loadImages categories
        (LoadOutcome.resolved { images := [], errors := errors }) r).error
      = some msg ∧ msg ≠ "" := by
  have hcat : categories.isEmpty = false := by
    cases categories with
    | nil => exact absurd rfl hne
    | cons a t => rfl
  refine ⟨?_, ?_, ?_, noImagesMessage errors, ?_, noImagesMessage_ne_empty errors⟩
  · simp [loadImages, hcat]
  · simp [loadImages, hcat]
  · simp [loadImages, hcat]
  · simp [loadImages, hcat]

/-- C5 witness: selecting only the empty tech category produces the Error
state with a non-empty message and no images. -/
theorem failed_resolution_error_state_witness :
    (["tech"] : List String) ≠ []
    ∧ ((loadImages ["tech"]
        (LoadOutcome.resolved { images := [], errors := ["tech"] }) 0).isLoading
      = false
    ∧ (loadImages ["tech"]
        (LoadOutcome.resolved { images := [], errors := ["tech"] }) 0).availableImages
      = []
    ∧ (loadImages ["tech"]
        (LoadOutcome.resolved { images := [], errors := ["tech"] }) 0).currentImage
      = none
    ∧ ∃ msg, (loadImages ["tech"]
        (LoadOutcome.resolved { images := [], errors := ["tech"] }) 0).error
      = some msg ∧ msg ≠ "") :=
  ⟨by decide, failed_resolution_error_state ["tech"] ["tech"] 0 (by decide)⟩

/-- C1 counterexample: /main.css classifies as a static asset and has a
cached copy, yet the handler answers from the cache issuing NO network
fetch at all — there is no background re-fetch refreshing the store, so
the claimed cache-then-revalidate behaviour fails at this input. -/
theorem staticAsset_no_background_refresh_counterexample :
    classify "/main.css" = RequestClass.staticAsset
    ∧ stStatic.matchUrl "/main.css" = some respOk
    ∧ (handleFetch stStatic netDown "/main.css" false).response = Except.ok respOk
    ∧ (handleFetch stStatic netDown "/main.css" false).netFetches = [] := by
  exact ⟨by decide, by decide, rfl, rfl⟩

/-- C1 (amended): static-asset and navigation requests are served plain
cache-first with NO background refresh: a cache hit is returned having
issued no network fetch and leaves the storage unchanged; only a miss goes
to the network (caching ok responses into the static store); and a miss
whose network fetch rejects on a navigation request falls back to the
cached /index.html root document. -/
theorem staticAsset_cache_first_no_refresh (st : CacheStorage) (net : Network)
    (url : String) (navigate : Bool) :
    (classify url = RequestClass.staticAsset →
      handleFetch st net url navigate = handleStaticAssetRequest st net url navigate)
    ∧ (∀ r, st.matchUrl url = some r →
        handleStaticAssetRequest st net url navigate =
          { response := Except.ok r, storage := st, netFetches := [] })
    ∧ (∀ r, st.matchUrl url = none → net url = some r →
        handleStaticAssetRequest st net url navigate =
          { response := Except.ok r,
            storage := if r.ok then st.openPut STATIC_CACHE_NAME url r else st,
            netFetches := [url] })
    ∧ (∀ idx, st.matchUrl url = none → net url = none → navigate = true →
        st.matchUrl "/index.html" = some idx →
        handleStaticAssetRequest st net url navigate =
          { response := Except.ok idx, storage := st, netFetches := [url] }) := by
  refine ⟨?_, ?_, ?_, ?_⟩
  · intro hcl
    simp [handleFetch, hcl]
  · intro r hm
    simp [handleStaticAssetRequest, hm]
  · intro r hm hn
    simp [handleStaticAssetRequest, hm, hn]
  · intro idx hm hn hnav hidx
    simp [handleStaticAssetRequest, hm, hn, hnav, hidx]

/-- C1 witness: the amended theorem applied to a cache hit on /main.css
(no fetch issued) and to a navigation miss with the network down served
from the cached root document. -/
theorem staticAsset_cache_first_no_refresh_witness :
    handleStaticAssetRequest stStatic netDown "/main.css" false =
      { response := Except.ok respOk, storage := stStatic, netFetches := [] }
    ∧ handleStaticAssetRequest stShell netDown "/" true =
      { response := Except.ok respOk, storage := stShell, netFetches := ["/"] } :=
  ⟨(staticAsset_cache_first_no_refresh stStatic netDown "/main.css" false).2.1
      respOk (by decide),
   (staticAsset_cache_first_no_refresh stShell netDown "/" true).2.2.2
      respOk (by decide) rfl rfl (by decide)⟩

/-- C6: a GET whose path has the wallpaper path marker is routed to
handleWallpaperRequest, which returns the cached bytes when present
(touching nothing); on a miss with an ok network response it stores the
bytes into the WALLPAPER store and returns them; and when the network
rejects it returns the constructed 404 unavailable response instead of
throwing. -/
theorem wallpaper_cache_first (st : CacheStorage) (net : Network) (url : String)
    (navigate : Bool) (hw : strStartsWith url "/wallpapers/" = true) :
    (handleFetch st net url navigate = handleWallpaperRequest st net url)
    ∧ (∀ r, st.matchUrl url = some r → handleWallpaperRequest st net url =
        { response := Except.ok r, storage := st, netFetches := [] })
    ∧ (∀ r, st.matchUrl url = none → net url = some r → r.ok = true →
        handleWallpaperRequest st net url =
          { response := Except.ok r,
            storage := st.openPut WALLPAPER_CACHE_NAME url r,
            netFetches := [url] }
        ∧ ((st.openPut WALLPAPER_CACHE_NAME url r).getStore
            WALLPAPER_CACHE_NAME).lookupKey url = some r)
    ∧ (st.matchUrl url = none → net url = none →
        handleWallpaperRequest st net url =
          { response := Except.ok unavailableResponse, storage := st,
            netFetches := [url] })
    ∧ unavailableResponse.status = 404 := by
  refine ⟨?_, ?_, ?_, ?_, rfl⟩
  · simp [handleFetch, classify, hw]
  · intro r hm
    simp [handleWallpaperRequest, hm]
  · intro r hm hn hok
    constructor
    · simp [handleWallpaperRequest, hm, hn, hok]
    · rw [CacheStorage.openPut, CacheStorage.getStore_setStore_self,
        CacheMap.lookupKey_put_self]
  · intro hm hn
    simp [handleWallpaperRequest, hm, hn]

/-- C6 witness: with an empty cache and the nature image reachable, the
bytes are stored into the WALLPAPER store and returned; with the network
down the typed unavailable response comes back. -/
theorem wallpaper_cache_first_witness :
    strStartsWith "/wallpapers/nature/a.jpg" "/wallpapers/" = true
    ∧ (handleWallpaperRequest [] netNature "/wallpapers/nature/a.jpg" =
        { response := Except.ok respOk,
          storage := CacheStorage.openPut [] WALLPAPER_CACHE_NAME
            "/wallpapers/nature/a.jpg" respOk,
          netFetches := ["/wallpapers/nature/a.jpg"] }
      ∧ ((CacheStorage.openPut [] WALLPAPER_CACHE_NAME
          "/wallpapers/nature/a.jpg" respOk).getStore
          WALLPAPER_CACHE_NAME).lookupKey "/wallpapers/nature/a.jpg" = some respOk)
    ∧ handleWallpaperRequest [] netDown "/wallpapers/nature/a.jpg" =
        { response := Except.ok unavailableResponse, storage := [],
          netFetches := ["/wallpapers/nature/a.jpg"] } :=
  ⟨by decide,
   (wallpaper_cache_first [] netNature "/wallpapers/nature/a.jpg" false
      (by decide)).2.2.1 respOk rfl (by decide) (by decide),
   (wallpaper_cache_first [] netDown "/wallpapers/nature/a.jpg" false
      (by decide)).2.2.2.1 rfl rfl⟩

/-- C7: activation of a deployment with version tag v deletes exactly the
stores whose name carries a different version tag: a tier store tagged w
survives the cleanup iff it existed before and w = v.  In particular
activating V2 after V1 deletes every V1-tagged store and keeps the V2 ones. -/
theorem activate_deletes_other_versions (st : CacheStorage) (b : CacheBase)
    (w v : Nat) :
    (b, w) ∈ (activateCleanup v st).names ↔ (b, w) ∈ st.names ∧ w = v := by
  simp only [CacheStorage.names, activateCleanup, List.mem_map, List.mem_filter,
    decide_eq_true_eq, Bool.or_eq_true, cacheNameV, staticCacheNameV,
    wallpaperCacheNameV]
  constructor
  · rintro ⟨s, ⟨hs, hp⟩, heq⟩
    refine ⟨⟨s, hs, heq⟩, ?_⟩
    rw [heq] at hp
    rcases hp with (h1 | h2) | h3
    · exact (Prod.mk.injEq _ _ _ _).mp h1 |>.2
    · exact (Prod.mk.injEq _ _ _ _).mp h2 |>.2
    · exact (Prod.mk.injEq _ _ _ _).mp h3 |>.2
  · rintro ⟨⟨s, hs, heq⟩, rfl⟩
    refine ⟨s, ⟨hs, ?_⟩, heq⟩
    rw [heq]
    cases b
    · exact Or.inl (Or.inl rfl)
    · exact Or.inl (Or.inr rfl)
    · exact Or.inr rfl

/-- C8: re-sending the same CACHE_WALLPAPERS set with the same fetch
outcomes leaves the WALLPAPER store's entry count unchanged, because
re-fetching a key overwrites its entry instead of duplicating it. -/
theorem cacheSet_idempotent_entry_count (st : CacheStorage) (net : Network)
    (images : List CacheImage) :
    ((handleMessage (handleMessage st net (ControlMessage.cacheSet images)).1 net
        (ControlMessage.cacheSet images)).1).entryCount WALLPAPER_CACHE_NAME =
      ((handleMessage st net (ControlMessage.cacheSet images)).1).entryCount
        WALLPAPER_CACHE_NAME := by
  simp only [handleMessage, cacheWallpapers, CacheStorage.entryCount,
    CacheStorage.getStore_setStore_self, runCacheSet_idem]

/-- C9: the client-side GET_CACHE_STATUS call uses a 5000 ms timeout; when
the controller is missing, the worker stays silent, or the reply misses the
window, the call resolves to the empty status mapping instead of raising,
while a reply within the window is returned as is. -/
theorem getCacheStatus_degrades_to_empty (controllerActive : Bool)
    (reply : ReplyBehavior)
    (hfail : controllerActive = false ∨ reply = ReplyBehavior.silent ∨
      ∃ t d, reply = ReplyBehavior.replyAt t d ∧ MESSAGE_TIMEOUT_MS ≤ t) :
    getCacheStatusClient controllerActive reply = []
    ∧ (∀ t d, t < MESSAGE_TIMEOUT_MS →
        getCacheStatusClient true (ReplyBehavior.replyAt t d) = d)
    ∧ MESSAGE_TIMEOUT_MS = 5000 := by
  refine ⟨?_, ?_, rfl⟩
  · rcases hfail with hc | hs | ⟨t, d, hr, ht⟩
    · rw [hc]
      rfl
    · rw [hs]
      cases controllerActive <;> rfl
    · rw [hr]
      cases controllerActive with
      | false => rfl
      | true =>
        simp [getCacheStatusClient, sendMessageToServiceWorker,
          Nat.not_lt_of_le ht]
  · intro t d ht
    simp [getCacheStatusClient, sendMessageToServiceWorker, ht]

/-- C9 witness: with an active controller and a silent worker the status
call resolves to the empty mapping, and a reply at 4999 ms is accepted. -/
theorem getCacheStatus_degrades_to_empty_witness :
    getCacheStatusClient true ReplyBehavior.silent = []
    ∧ getCacheStatusClient true (ReplyBehavior.replyAt 4999 []) = [] :=
  ⟨(getCacheStatus_degrades_to_empty true ReplyBehavior.silent
      (Or.inr (Or.inl rfl))).1,
   (getCacheStatus_degrades_to_empty true ReplyBehavior.silent
      (Or.inr (Or.inl rfl))).2.1 4999 [] (by decide)⟩

/-- C10: a wallpaper-path GET with no cached entry whose network response
is not ok is answered with the constructed unavailable response — the
non-ok network response is neither returned nor stored (the storage is
untouched), exactly as if the network had been unreachable. -/
theorem wallpaper_not_ok_never_returned (st : CacheStorage) (net : Network)
    (url : String) (r : SWResponse) (hm : st.matchUrl url = none)
    (hnet : net url = some r) (hok : r.ok = false) :
    handleWallpaperRequest st net url =
      { response := Except.ok unavailableResponse, storage := st,
        netFetches := [url] }
    ∧ handleWallpaperRequest st net url = handleWallpaperRequest st netDown url := by
  have h1 : handleWallpaperRequest st net url =
      { response := Except.ok unavailableResponse, storage := st,
        netFetches := [url] } := by
    simp [handleWallpaperRequest, hm, hnet, hok]
  have h2 : handleWallpaperRequest st netDown url =
      { response := Except.ok unavailableResponse, storage := st,
        netFetches := [url] } := by
    simp [handleWallpaperRequest, hm, netDown]
  exact ⟨h1, h1.trans h2.symm⟩

/-- C10 witness: a 500 from the server on the nature image with an empty
cache yields the typed unavailable response and leaves the storage empty. -/
theorem wallpaper_not_ok_never_returned_witness :
    CacheStorage.matchUrl [] "/wallpapers/nature/a.jpg" = none
    ∧ netBad "/wallpapers/nature/a.jpg" = some respErr
    ∧ respErr.ok = false
    ∧ handleWallpaperRequest [] netBad "/wallpapers/nature/a.jpg" =
      { response := Except.ok unavailableResponse, storage := [],
        netFetches := ["/wallpapers/nature/a.jpg"] } :=
  ⟨rfl, rfl, by decide,
   (wallpaper_not_ok_never_returned [] netBad "/wallpapers/nature/a.jpg" respErr
      rfl rfl (by decide)).1⟩

end DesktopClock
